import Mathlib

/-!
Verification of the `bitmask-core` server core against its design
specification.

The development shallowly embeds the two source files:

* `src/bin/bitmaskd.rs` — the axum REST server: route table, bearer-token
  extraction per handler, the carbonado blob store (`co_store` /
  `co_retrieve`), the ECDH `key` handler and the `AppError` transport
  wrapper.
* `src/operations/rgb/receive_tokens.rs` — the `blind_utxo` seal-blinding
  primitive.

Effectful Rust code is embedded by explicit state passing: the filesystem
is an association list from full path strings to byte payloads, the
process environment is an `Option String` per variable, and random draws
(the seal blinding factor) are explicit arguments.  Fallible code returns
`Except`.  External library functions (secp256k1 key parsing and ECDH,
the rgb seal digest) are modelled at the level of detail the theorems
need; each such model carries a doc comment saying what it abstracts.
-/

namespace Bitmask

/-! Filesystem model and the carbonado blob store.

`co_store` (bitmaskd.rs lines 147-161) writes the request body to
`/tmp/bitmaskd/carbonado/{pk}/{name}`.  `co_retrieve` (lines 163-175)
reads `{CARBONADO_DIR or "/tmp/bitmaskd/carbonado"}/{pk}/{name}`, where
`CARBONADO_DIR` is a compile-time environment lookup (`option_env!`).
The filesystem is modelled as an association list from full path strings
to byte lists; `fs::write` prepends (so lookup of the first match gives
last-write-wins semantics), `fs::read` on an absent path fails with the
io error kind `NotFound`. -/

/-- A byte payload (each entry a byte value). -/
abbrev Bytes := List Nat

/-- Filesystem state: full path string to stored payload, most recent
write first. -/
abbrev Fs := List (String × Bytes)

/-- io error kinds relevant to `fs::read`; `notFound` is what reading a
missing path yields, other kinds stand for every other io failure. -/
inductive IoErr where
  | notFound
  | permissionDenied
  deriving DecidableEq, Repr

/-- Display string of the io error, as the Rust `io::Error` renders it. -/
def ioErrMsg : IoErr → String
  | IoErr.notFound => "No such file or directory (os error 2)"
  | IoErr.permissionDenied => "Permission denied (os error 13)"

/-- Model of `fs::write`: record the payload under the path (last write shadows
earlier ones). -/
def fsWrite (path : String) (body : Bytes) (fs : Fs) : Fs :=
  (path, body) :: fs

/-- Model of `fs::read`: first (most recent) record under the path, io `NotFound`
when none exists. -/
def fsRead (path : String) (fs : Fs) : Except IoErr Bytes :=
  match fs.lookup path with
  | some b => Except.ok b
  | none => Except.error IoErr.notFound

/-- The directory `co_store` writes under (bitmaskd.rs line 153). -/
def storeDir : String := "/tmp/bitmaskd/carbonado"

/-- Full path `co_store` writes to: `format!("{path}/{name}")` over
`format!("/tmp/bitmaskd/carbonado/{pk}")` (lines 153-154). -/
def storePath (pk name : String) : String :=
  storeDir ++ "/" ++ pk ++ "/" ++ name

/-- The directory `co_retrieve` reads under:
`option_env!("CARBONADO_DIR").unwrap_or("/tmp/bitmaskd/carbonado")`
(line 168); `env` is the compile-time value of `CARBONADO_DIR`. -/
def retrieveDir (env : Option String) : String :=
  env.getD "/tmp/bitmaskd/carbonado"

/-- Full path `co_retrieve` reads: `format!("{path}/{pk}/{name}")`
(line 169). -/
def retrievePath (env : Option String) (pk name : String) : String :=
  retrieveDir env ++ "/" ++ pk ++ "/" ++ name

/-- Handler `co_store` (lines 147-161): create the owner directory,
write the body, answer 200.  `create_dir_all` has no effect on the
path-to-payload map; the write itself is total in this model. -/
def co_store (pk name : String) (body : Bytes) (fs : Fs) : Fs × Nat :=
  (fsWrite (storePath pk name) body fs, 200)

/-- Handler `co_retrieve` (lines 163-175): read the file at the
(possibly env-overridden) path and answer 200 with its bytes; a read
failure propagates via `?`. -/
def co_retrieve (env : Option String) (pk name : String) (fs : Fs) :
    Except IoErr (Nat × Bytes) :=
  match fsRead (retrievePath env pk name) fs with
  | Except.ok b => Except.ok (200, b)
  | Except.error e => Except.error e

/-- Response body of `AppError::into_response` (bitmaskd.rs lines 227-235): every
failure becomes status 500 with `"Something went wrong: "` followed by
the wrapped error's display. -/
def appErrorResponse (msg : String) : Nat × String :=
  (500, "Something went wrong: " ++ msg)

/-! Seal blinding (`receive_tokens.rs`).

`blind_utxo` constructs `seal::Revealed::new(CloseMethod::TapretFirst,
utxo)` — a revealed seal with a freshly drawn random `u64` blinding
factor — and returns the blinding factor and the concealed seal as
strings, together with the unchanged outpoint.  The random draw is the
explicit `blinding` argument of the embedding. -/

/-- Variants of `bp::seals::txout::CloseMethod`. -/
inductive CloseMethod where
  | tapretFirst
  | opretFirst
  deriving DecidableEq, Repr

/-- Serialization tag of a close method (distinct byte per variant). -/
def CloseMethod.tag : CloseMethod → Nat
  | CloseMethod.tapretFirst => 1
  | CloseMethod.opretFirst => 2

/-- Type `bitcoin::OutPoint`: transaction id (a 256-bit number) and output
index. -/
structure OutPoint where
  txid : Nat
  vout : Nat
  deriving DecidableEq, Repr

/-- Type `rgb::seal::Revealed`: close method, outpoint fields and the secret
blinding factor (a `u64` in the source). -/
structure RevealedSeal where
  method : CloseMethod
  txid : Nat
  vout : Nat
  blinding : Nat
  deriving DecidableEq, Repr

/-- Constructor `seal::Revealed::new(method, utxo)` with the random `u64` blinding
draw made explicit. -/
def RevealedSeal.new (method : CloseMethod) (utxo : OutPoint)
    (blinding : Nat) : RevealedSeal :=
  { method := method, txid := utxo.txid, vout := utxo.vout,
    blinding := blinding }

/-- Model of `Revealed::to_concealed_seal()`: the digest input of the
commitment, i.e. the serialized (close method, txid, vout, blinding)
quadruple.  The external hash is modelled as this serialization itself:
it is a deterministic function of exactly these fields, which is all the
claims about it use. -/
def toConcealedSeal (s : RevealedSeal) : List Nat :=
  [s.method.tag, s.txid, s.vout, s.blinding]

/-- Type BlindResponse with fields blinding and conceal, from `data::structs`, both
fields rendered to strings as in the source. -/
structure BlindResponse where
  blinding : String
  conceal : String
  deriving DecidableEq, Repr

/-- Operation `blind_utxo` (receive_tokens.rs lines 8-19): build the tapret-first
revealed seal over the outpoint with the drawn blinding factor, render
the blinding factor and concealed seal, and return them with the
outpoint.  The body has no failing path, so it always returns `Ok`. -/
def blind_utxo (utxo : OutPoint) (blinding : Nat) :
    Except String (BlindResponse × OutPoint) :=
  Except.ok
    ({ blinding := toString blinding,
       conceal :=
         toString (toConcealedSeal
           (RevealedSeal.new CloseMethod.tapretFirst utxo blinding)) },
     utxo)

/-! The secp256k1 model and the `key` handler.

The `key` handler (bitmaskd.rs lines 177-187) reads the secret key from
the server's `NOSTR_SK` environment variable, parses it, parses the
public key supplied in the URL path, computes the ECDH shared secret and
returns its hex display.

secp256k1 model: the curve group is cyclic of prime order `n`; a point
`P = k·G` is represented by its discrete logarithm `k : ZMod n`, so
scalar multiplication of a point by a secret key is multiplication in
`ZMod n`.  A secret key is a scalar in `[1, n-1]`; its transport form is
a 64-character hex string.  A public key's transport form is modelled as
the hex string of its discrete logarithm (the real compressed-point
encoding is bijective with the point, hence with the logarithm, so
nothing the theorems state depends on this simplification).  The
`SharedSecret` hash of the shared point is modelled as the point's
scalar value, hex-encoded. -/

/-- The order of the secp256k1 group. -/
def secpOrder : Nat :=
  115792089237316195423570985008687907852837564279074904382605163141518161494337

/-- A scalar of the secp256k1 group; also represents the point with that
discrete logarithm. -/
abbrev Scalar := ZMod secpOrder

/-- Value of one hex digit. -/
def hexDigitVal (c : Char) : Option Nat :=
  if ('0' ≤ c ∧ c ≤ '9') then some (c.toNat - '0'.toNat)
  else if ('a' ≤ c ∧ c ≤ 'f') then some (c.toNat - 'a'.toNat + 10)
  else if ('A' ≤ c ∧ c ≤ 'F') then some (c.toNat - 'A'.toNat + 10)
  else none

/-- Value of a hex string, `none` when any character is not a hex
digit. -/
def hexToNat : List Char → Option Nat
  | [] => some 0
  | c :: cs =>
    match hexDigitVal c, hexToNat cs with
    | some d, some v => some (d * 16 ^ cs.length + v)
    | _, _ => none

/-- Hex rendering of a number (used for the shared-secret display). -/
def hexOfNat (v : Nat) : String :=
  String.mk (Nat.toDigits 16 v)

/-- Model of `SecretKey::from_str`: 64 hex characters whose value lies
in `[1, secpOrder)`. -/
def parseSecretKey (s : String) : Option Scalar :=
  match hexToNat s.data with
  | some v =>
    if s.length = 64 ∧ 1 ≤ v ∧ v < secpOrder then some (v : Scalar)
    else none
  | none => none

/-- Model of `PublicKey::from_str`: a valid point encoding, represented
by the hex string of the point's discrete logarithm, which must be a
nonzero scalar. -/
def parsePublicKey (s : String) : Option Scalar :=
  match hexToNat s.data with
  | some v =>
    if s.length = 64 ∧ 1 ≤ v ∧ v < secpOrder then some (v : Scalar)
    else none
  | none => none

/-- The public key of a secret key: the point `sk·G`, i.e. the point
with discrete logarithm `sk`. -/
def publicKeyOf (sk : Scalar) : Scalar := sk

/-- Model of `SharedSecret::new(&pk, &sk)` followed by
`display_secret().to_string()`: the shared point `sk·pk` (scalar
multiplication of the point by the secret key, i.e. multiplication of
discrete logarithms), hex-encoded. -/
def derive_shared_secret (sk : Scalar) (pk : Scalar) : String :=
  hexOfNat (sk * pk).val

/-- Failures of the `key` handler, in the order the source can hit
them. -/
inductive KeyErr where
  | envVarMissing
  | invalidSecretKey
  | invalidPublicKey
  deriving DecidableEq, Repr

/-- Display string of each failure, as the wrapped Rust errors render
them (`env::VarError::NotPresent`, `secp256k1::Error`). -/
def keyErrMsg : KeyErr → String
  | KeyErr.envVarMissing => "environment variable not found"
  | KeyErr.invalidSecretKey => "malformed or out-of-range secret key"
  | KeyErr.invalidPublicKey => "malformed public key"

/-- Handler `key` (bitmaskd.rs lines 177-187): `env::var("NOSTR_SK")?`,
parse it as the secret key, parse the path parameter as the public key,
return the hex shared secret.  `env` is the server process's `NOSTR_SK`
variable; the caller supplies only `pkStr`. -/
def keyHandler (env : Option String) (pkStr : String) :
    Except KeyErr String :=
  match env with
  | none => Except.error KeyErr.envVarMissing
  | some skStr =>
    match parseSecretKey skStr with
    | none => Except.error KeyErr.invalidSecretKey
    | some sk =>
      match parsePublicKey pkStr with
      | none => Except.error KeyErr.invalidPublicKey
      | some pk => Except.ok (derive_shared_secret sk pk)

/-- Caller-visible transport response of the `key` route: 200 with the
secret on success, the `AppError` wrapping on failure. -/
def keyResponse (env : Option String) (pkStr : String) : Nat × String :=
  match keyHandler env pkStr with
  | Except.ok s => (200, s)
  | Except.error e => appErrorResponse (keyErrMsg e)

/-! Route table and bearer-token extraction.

Each handler of bitmaskd.rs either begins with a
`TypedHeader(auth): TypedHeader<Authorization<Bearer>>` extractor —
axum rejects the request before the handler body runs when the header
is absent — or has no such extractor.  `extractsBearer` records, per
handler, whether its signature contains that extractor; `routes` is the
`Router::new()` chain of `main` (lines 197-209). -/

/-- The eleven handlers registered by `main`. -/
inductive Handler where
  | issue
  | invoice
  | psbt
  | pay
  | accept
  | contracts
  | interfaces
  | schemas
  | key
  | coStore
  | coRetrieve
  deriving DecidableEq, Repr

/-- Whether the handler's signature contains the
`TypedHeader<Authorization<Bearer>>` extractor (bitmaskd.rs lines 29,
52, 72, 86, 99, 112, 124, 136 for the first eight; `key`, `co_store`
and `co_retrieve` have none). -/
def extractsBearer : Handler → Bool
  | Handler.issue => true
  | Handler.invoice => true
  | Handler.psbt => true
  | Handler.pay => true
  | Handler.accept => true
  | Handler.contracts => true
  | Handler.interfaces => true
  | Handler.schemas => true
  | Handler.key => false
  | Handler.coStore => false
  | Handler.coRetrieve => false

/-- The route table of `main` (lines 197-209): HTTP method, path,
handler. -/
def routes : List (String × String × Handler) :=
  [("POST", "/issue", Handler.issue),
   ("POST", "/invoice", Handler.invoice),
   ("POST", "/psbt", Handler.psbt),
   ("POST", "/pay", Handler.pay),
   ("POST", "/accept", Handler.accept),
   ("GET", "/contracts", Handler.contracts),
   ("GET", "/interfaces", Handler.interfaces),
   ("GET", "/schemas", Handler.schemas),
   ("GET", "/key/:pk", Handler.key),
   ("POST", "/carbonado/:pk/:name", Handler.coStore),
   ("GET", "/carbonado/:pk/:name", Handler.coRetrieve)]

/-- The mutating operations named by the design: the five transfer
lifecycle stages, which call the state-changing `bitmask_core::rgb`
operations, and blob put, which writes the filesystem. -/
def mutatingHandlers : List Handler :=
  [Handler.issue, Handler.invoice, Handler.psbt, Handler.pay,
   Handler.accept, Handler.coStore]

/-! Theorems.  Each claim of the design review is settled below; the
order follows the claim numbering. -/

/-- C1 counterexample: the claim that every mutating route (issue,
invoice, psbt, pay, accept, and blob put) extracts a caller-supplied
bearer token is false: blob put (`POST /carbonado/:pk/:name`, handler
`co_store`) is registered, is mutating (its handler changes the
filesystem), yet its signature has no bearer extractor. -/
theorem blob_put_route_unauthenticated :
    ("POST", "/carbonado/:pk/:name", Handler.coStore) ∈ routes ∧
    Handler.coStore ∈ mutatingHandlers ∧
    extractsBearer Handler.coStore = false ∧
    (co_store "pk" "invoice-1" [0] []).1 ≠ ([] : Fs) := by
  refine ⟨by decide, by decide, rfl, ?_⟩
  simp [co_store, fsWrite]

/-- C1 amended: the five RGB mutating routes (issue, invoice, psbt,
pay, accept) are registered and each extracts the caller's bearer token
before running; blob put does not authenticate. -/
theorem rgb_mutating_routes_require_bearer :
    (("POST", "/issue", Handler.issue) ∈ routes ∧
      extractsBearer Handler.issue = true) ∧
    (("POST", "/invoice", Handler.invoice) ∈ routes ∧
      extractsBearer Handler.invoice = true) ∧
    (("POST", "/psbt", Handler.psbt) ∈ routes ∧
      extractsBearer Handler.psbt = true) ∧
    (("POST", "/pay", Handler.pay) ∈ routes ∧
      extractsBearer Handler.pay = true) ∧
    (("POST", "/accept", Handler.accept) ∈ routes ∧
      extractsBearer Handler.accept = true) := by
  decide

/-- C2 counterexample: with no `CARBONADO_DIR` override the store and
retrieve directories are not different — they are the same string
`/tmp/bitmaskd/carbonado`, and the full paths coincide for every
(owner, name). -/
theorem default_store_retrieve_paths_equal :
    retrieveDir none = storeDir ∧
    retrievePath none "pk" "invoice-1" = storePath "pk" "invoice-1" := by
  constructor <;> rfl

/-- C2 amended: retrieval reads from a directory chosen independently of
the write path (the compile-time `CARBONADO_DIR`, defaulting to the
store directory), but with no override set the two default paths are
identical, so store and retrieve agree by default and diverge only under
an override. -/
theorem retrieve_dir_independent_of_store :
    retrieveDir none = storeDir ∧
    (∀ d : String, retrieveDir (some d) = d) ∧
    (∀ pk name : String,
      retrievePath none pk name = storePath pk name) := by
  refine ⟨rfl, fun d => rfl, fun pk name => rfl⟩

/-- C3: when no record exists under the retrieval path for (owner,
name), blob get fails with the io error kind `NotFound`, a kind distinct
from other io failures and carried into a caller-visible response
distinct from theirs. -/
theorem blob_get_missing_notFound (env : Option String)
    (pk name : String) (fs : Fs)
    (h : fs.lookup (retrievePath env pk name) = none) :
    co_retrieve env pk name fs = Except.error IoErr.notFound ∧
    IoErr.notFound ≠ IoErr.permissionDenied ∧
    appErrorResponse (ioErrMsg IoErr.notFound) ≠
      appErrorResponse (ioErrMsg IoErr.permissionDenied) := by
  refine ⟨?_, by decide, by decide⟩
  simp [co_retrieve, fsRead, h]

/-- C3 witness: in the empty filesystem, blob get of ("pk",
"invoice-1") with no directory override fails with `NotFound`. -/
theorem blob_get_missing_notFound_witness :
    co_retrieve none "pk" "invoice-1" ([] : Fs) =
      Except.error IoErr.notFound ∧
    IoErr.notFound ≠ IoErr.permissionDenied ∧
    appErrorResponse (ioErrMsg IoErr.notFound) ≠
      appErrorResponse (ioErrMsg IoErr.permissionDenied) :=
  blob_get_missing_notFound none "pk" "invoice-1" [] rfl

/-- C4: with the default (unoverridden) retrieval directory, blob put
followed by blob get of the same (owner, name) returns exactly the
written bytes, and a second put under the same pair overwrites the
first (last-write-wins). -/
theorem blob_put_get_roundtrip :
    ∀ (pk name : String) (body : Bytes) (fs : Fs),
      (co_retrieve none pk name (co_store pk name body fs).1 =
        Except.ok (200, body)) ∧
      (∀ b1 b2 : Bytes,
        co_retrieve none pk name
            (co_store pk name b2 (co_store pk name b1 fs).1).1 =
          Except.ok (200, b2)) := by
  intro pk name body fs
  constructor
  · simp [co_retrieve, co_store, fsRead, fsWrite, retrievePath,
      storePath, retrieveDir, storeDir, List.lookup]
  · intro b1 b2
    simp [co_retrieve, co_store, fsRead, fsWrite, retrievePath,
      storePath, retrieveDir, storeDir, List.lookup]

/-- C5 counterexample: the key-derivation result is a function of the
server-side `NOSTR_SK` environment variable: two requests with the same
path public key but different server environments yield different
secrets, and the `key` handler extracts no caller-supplied bearer
token, so the private key used is sourced server-side, not from the
caller's request. -/
theorem key_uses_server_env_secret :
    keyHandler
        (some
          "0000000000000000000000000000000000000000000000000000000000000001")
        "0000000000000000000000000000000000000000000000000000000000000003" =
      Except.ok "3" ∧
    keyHandler
        (some
          "0000000000000000000000000000000000000000000000000000000000000002")
        "0000000000000000000000000000000000000000000000000000000000000003" =
      Except.ok "6" ∧
    ("3" : String) ≠ "6" ∧
    extractsBearer Handler.key = false :=
  ⟨rfl, rfl, by decide, rfl⟩

/-- C5 amended: the key operation hex-encodes the ECDH shared secret of
the secret key parsed from the server's `NOSTR_SK` environment variable
and the counterparty public key parsed from the request path; the
caller supplies no private key. -/
theorem key_derives_from_env_secret (skStr pkStr : String)
    (sk pk : Scalar) (hsk : parseSecretKey skStr = some sk)
    (hpk : parsePublicKey pkStr = some pk) :
    keyHandler (some skStr) pkStr =
      Except.ok (derive_shared_secret sk pk) := by
  simp [keyHandler, hsk, hpk]

/-- C5 amended witness: with `NOSTR_SK` set to the scalar 1 and path
public key 3, the handler returns the shared secret of 1 and 3. -/
theorem key_derives_from_env_secret_witness :
    parseSecretKey
        "0000000000000000000000000000000000000000000000000000000000000001" =
      some 1 ∧
    parsePublicKey
        "0000000000000000000000000000000000000000000000000000000000000003" =
      some 3 ∧
    keyHandler
        (some
          "0000000000000000000000000000000000000000000000000000000000000001")
        "0000000000000000000000000000000000000000000000000000000000000003" =
      Except.ok (derive_shared_secret 1 3) := by
  refine ⟨by decide, by decide, ?_⟩
  exact key_derives_from_env_secret _ _ 1 3 (by decide) (by decide)

/-- C6 counterexample: two failing runs that differ only in the secret
identity material — `NOSTR_SK` absent versus `NOSTR_SK` unparsable —
produce different caller-visible responses (both status 500, bodies
naming the distinct failure kinds), so the failure response content
depends on key-parse details. -/
theorem error_response_reveals_parse_detail :
    keyHandler none "03" = Except.error KeyErr.envVarMissing ∧
    keyHandler (some "zz") "03" = Except.error KeyErr.invalidSecretKey ∧
    (keyResponse none "03").1 = 500 ∧
    (keyResponse (some "zz") "03").1 = 500 ∧
    keyResponse none "03" ≠ keyResponse (some "zz") "03" :=
  ⟨rfl, rfl, rfl, rfl, by decide⟩

/-- C6 amended: every failure maps to the uniform status 500 with a
body prefixed `Something went wrong: `; the body names the failure kind
but never the secret bytes: any two runs whose server secrets both fail
to parse produce identical caller-visible responses. -/
theorem error_response_uniform_for_malformed_secrets
    (s1 s2 pkStr : String) (h1 : parseSecretKey s1 = none)
    (h2 : parseSecretKey s2 = none) :
    keyResponse (some s1) pkStr = keyResponse (some s2) pkStr ∧
    (keyResponse (some s1) pkStr).1 = 500 ∧
    (∀ e : KeyErr, (appErrorResponse (keyErrMsg e)).1 = 500) := by
  refine ⟨?_, ?_, fun e => rfl⟩ <;>
    simp [keyResponse, keyHandler, h1, h2, appErrorResponse]

/-- C6 amended witness: the unparsable secrets "zz" and "q" produce the
same uniform 500 response. -/
theorem error_response_uniform_witness :
    keyResponse (some "zz") "03" = keyResponse (some "q") "03" ∧
    (keyResponse (some "zz") "03").1 = 500 ∧
    (∀ e : KeyErr, (appErrorResponse (keyErrMsg e)).1 = 500) :=
  error_response_uniform_for_malformed_secrets "zz" "q" "03" rfl rfl

/-- C7: concealment is deterministic — any two revealed seals agreeing
on close method, outpoint, and blinding factor have the same concealed
digest. -/
theorem conceal_deterministic (s1 s2 : RevealedSeal)
    (hm : s1.method = s2.method) (ht : s1.txid = s2.txid)
    (hv : s1.vout = s2.vout) (hb : s1.blinding = s2.blinding) :
    toConcealedSeal s1 = toConcealedSeal s2 := by
  simp [toConcealedSeal, hm, ht, hv, hb]

/-- C7 witness: a seal built by `Revealed::new` over outpoint (7, 1)
with blinding 99 conceals to the same digest as the literal seal with
those fields. -/
theorem conceal_deterministic_witness :
    toConcealedSeal
        (RevealedSeal.new CloseMethod.tapretFirst ⟨7, 1⟩ 99) =
      toConcealedSeal ⟨CloseMethod.tapretFirst, 7, 1, 99⟩ :=
  conceal_deterministic
    (RevealedSeal.new CloseMethod.tapretFirst ⟨7, 1⟩ 99)
    ⟨CloseMethod.tapretFirst, 7, 1, 99⟩ rfl rfl rfl rfl

/-- C8: ECDH shared-secret derivation is symmetric — for valid key
pairs, deriving with the first secret key and the second public key
equals deriving with the second secret key and the first public key. -/
theorem derive_shared_secret_symmetric (skA skB : Scalar)
    (pkA pkB : Scalar) (hA : skA ≠ 0) (hB : skB ≠ 0)
    (hpA : pkA = publicKeyOf skA) (hpB : pkB = publicKeyOf skB) :
    derive_shared_secret skA pkB = derive_shared_secret skB pkA := by
  subst hpA hpB
  simp [derive_shared_secret, publicKeyOf, mul_comm]

/-- C8 witness: symmetry at the concrete key pair with secret keys 3
and 5. -/
theorem derive_shared_secret_symmetric_witness :
    (3 : Scalar) ≠ 0 ∧ (5 : Scalar) ≠ 0 ∧
    derive_shared_secret 3 (publicKeyOf 5) =
      derive_shared_secret 5 (publicKeyOf 3) :=
  ⟨by decide, by decide,
    derive_shared_secret_symmetric 3 5 (publicKeyOf 3) (publicKeyOf 5)
      (by decide) (by decide) rfl rfl⟩

/-- C9: `blind_utxo` always builds its revealed seal with close method
tapret-first — the operation takes no close-method argument, the seal
behind the returned response has method `tapretFirst`, and the concealed
digest genuinely records that choice (an opret-first seal over the same
data would conceal differently). -/
theorem blind_utxo_tapret_first (utxo : OutPoint) (b : Nat) :
    (∃ s : RevealedSeal, s.method = CloseMethod.tapretFirst ∧
      blind_utxo utxo b =
        Except.ok
          ({ blinding := toString s.blinding,
             conceal := toString (toConcealedSeal s) }, utxo)) ∧
    toConcealedSeal (RevealedSeal.new CloseMethod.tapretFirst utxo b) ≠
      toConcealedSeal (RevealedSeal.new CloseMethod.opretFirst utxo b) := by
  refine ⟨⟨RevealedSeal.new CloseMethod.tapretFirst utxo b, rfl, rfl⟩, ?_⟩
  simp [toConcealedSeal, RevealedSeal.new, CloseMethod.tag]

/-- C10: `blind_utxo` succeeds on every input and returns the input
outpoint unchanged as the second component; in this embedding its only
effect beyond the explicit random blinding draw is producing the
response. -/
theorem blind_utxo_preserves_outpoint (utxo : OutPoint) (b : Nat) :
    ∃ resp : BlindResponse,
      blind_utxo utxo b = Except.ok (resp, utxo) :=
  ⟨_, rfl⟩

end Bitmask
